import Mathlib

/-!
ShowInvestor — analytics pipeline, shallow embedding.

A shallow embedding of the analytics core of `src/ShowInvestor.py`
(`analyze_data`, `generate_insights`, `generate_pdf`), with theorems that
settle the specification claims about it.

Modelling conventions:
* A pandas DataFrame row is a `RawRow`; a column cell that may fail numeric
  coercion is a `RawAmount` (`pd.to_numeric(..., errors="coerce")` maps the
  uncoercible and missing cells to NaN); a date cell that may fail parsing is
  a `RawDate` (`pd.to_datetime` raises on a malformed cell).  Only the month
  of a parsed date is observable downstream (`strftime("%B")` followed by the
  ordered `Categorical` over the twelve month names), so a parsed date is
  represented by its month ordinal `Fin 12` (0 = January .. 11 = December).
* Python floats are modelled as rationals `ℚ`; no claim below depends on
  rounding, only on sums, signs and comparisons.
* `df.sort_values(col)` is modelled as a stable sort (`sortStable`).  For the
  `Month` sort this is harmless: every downstream consumer aggregates, so the
  order of rows within one month is not observable.  For the descending
  product sort, pandas `nargsort` reverses the array, argsorts it ascending
  and reverses the resulting indexer, so with a stable underlying argsort the
  result is a stable descending order; but the default `kind="quicksort"` is
  a numpy introsort that is stable only up to its small-array insertion-sort
  cutoff, so `sortStable` reproduces the order guaranteed below that cutoff
  and the tie order of larger rankings is implementation-defined and not
  modelled here.
* `df.groupby(["Month", "Type"])` groups by an *ordered categorical* month
  column; with the pandas default `observed=False` the result is reindexed to
  the cartesian product of all twelve month categories with the observed
  `Type` values (in sorted order, `"Expense" < "Sales"`), and
  `GroupBy.sum` fills the unobserved combinations with 0.
* `analyze_data` mutates its caller's frame: line 64 of the source overwrites
  the `Amount` column in place before `dropna` rebinds the local name to a
  copy.  It is therefore modelled as returning both the caller's table after
  the call and the normalisation outcome (`Except`).
-/

namespace ShowInvestor

/-- Sales/Expense classification, the values of the derived `Type` column. -/
inductive TType where
  | Sales
  | Expense
deriving DecidableEq, Repr

/-- An `Amount` cell as seen by `pd.to_numeric(..., errors="coerce")`:
either a cell that coerces to the number `q`, a missing/NaN cell, or a cell
(carrying its original text) that fails coercion. -/
inductive RawAmount where
  | num (q : ℚ)
  | nan
  | invalid (s : String)
deriving DecidableEq, Repr

/-- A `Date` cell as seen by `pd.to_datetime`: either parseable (only its
month is used downstream) or malformed (carrying its original text), on which
`pd.to_datetime` raises. -/
inductive RawDate where
  | valid (month : Fin 12)
  | malformed (s : String)
deriving DecidableEq, Repr

/-- One raw input row: the `Date`, `Description`, `Amount` columns plus the
source-asserted `Type` label (the dashboard sets it to `"Sales"` or
`"Expense"` before calling `analyze_data`, which overwrites it). -/
structure RawRow where
  date : RawDate
  description : String
  amount : RawAmount
  typeLabel : String
deriving DecidableEq, Repr

/-- One normalized record: the columns of the frame returned by
`analyze_data` that are read downstream (`Month`, `Description`, `Amount`,
`Type`). -/
structure Record where
  month : Fin 12
  description : String
  amount : ℚ
  type : TType
deriving DecidableEq, Repr

/-- The exception raised by `pd.to_datetime` on a malformed date cell
(the spec's `MalformedInputError`); carries the offending text. -/
structure MalformedInputError where
  cell : String
deriving DecidableEq, Repr

/-! ## Stable sorting (model of `sort_values`) -/

/-- Insert `x` into `l` before the first element `y` with `le x y`;
the insertion step of a stable insertion sort. -/
def insertStable (le : α → α → Bool) (x : α) : List α → List α
  | [] => [x]
  | y :: ys => if le x y then x :: y :: ys else y :: insertStable le x ys

/-- Stable insertion sort: elements comparing equal keep their original
relative order (provided `le` holds both ways on equals). -/
def sortStable (le : α → α → Bool) : List α → List α
  | [] => []
  | x :: xs => insertStable le x (sortStable le xs)

theorem insertStable_perm (le : α → α → Bool) (x : α) (l : List α) :
    List.Perm (insertStable le x l) (x :: l) := by
  induction l with
  | nil => simp [insertStable]
  | cons y ys ih =>
    by_cases h : le x y
    · simp [insertStable, h]
    · simp only [insertStable, h, if_neg]
      exact (List.Perm.cons y ih).trans (List.Perm.swap x y ys)

theorem sortStable_perm (le : α → α → Bool) (l : List α) :
    List.Perm (sortStable le l) l := by
  induction l with
  | nil => simp [sortStable]
  | cons x xs ih =>
    exact (insertStable_perm le x (sortStable le xs)).trans (List.Perm.cons x ih)

/-! ## First-occurrence deduplication (model of pandas `.unique()`) -/

/-- Model of `pandas.Series.unique`: the distinct values in order of first
appearance (each later duplicate of an earlier element is removed). -/
def uniqueFirst [DecidableEq α] : List α → List α
  | [] => []
  | x :: xs => x :: (uniqueFirst xs).filter (fun y => y ≠ x)

/-! ## `analyze_data` (source lines 57-83): normalization and classification -/

/-- Model of `pd.to_numeric(cell, errors="coerce")`: numeric cells keep their value,
everything else (missing or uncoercible) becomes NaN. -/
def to_numeric : RawAmount → RawAmount
  | .num q => .num q
  | .nan => .nan
  | .invalid _ => .nan

/-- Line 64 of the source, applied to one row: overwrite the `Amount` cell
with its coerced value.  This happens *in place* on the caller's frame. -/
def coerceAmountCell (r : RawRow) : RawRow :=
  { r with amount := to_numeric r.amount }

/-- Whether the (already coerced) `Amount` cell is non-NaN, i.e. whether
`dropna(subset=["Amount"])` keeps the row. -/
def isNumCell : RawAmount → Bool
  | .num _ => true
  | _ => false

/-- The numeric value of an `Amount` cell (`0` on the NaN cells, which
`dropna` has already removed wherever this is used). -/
def cellValue : RawAmount → ℚ
  | .num q => q
  | _ => 0

/-- The month of a `Date` cell (`0` on the malformed cells, which
`pd.to_datetime` has already raised on wherever this is used). -/
def cellMonth : RawDate → Fin 12
  | .valid m => m
  | .malformed _ => 0

/-- The text of a malformed `Date` cell, if the cell is malformed. -/
def badDate : RawDate → Option String
  | .valid _ => none
  | .malformed s => some s

/-- Model of `pd.to_datetime(df["Date"])` on the whole column: the first malformed
cell, if any, makes the call raise. -/
def firstBadDate (rows : List RawRow) : Option String :=
  rows.findSome? (fun r => badDate r.date)

/-- Line 73 of the source: `"Sales" if x > 0 else "Expense"`. -/
def classify (q : ℚ) : TType :=
  if 0 < q then .Sales else .Expense

/-- Lines 70-76 of the source, applied to one kept row: parse the date,
derive `Type` from the amount sign (any supplied type label is overwritten)
and `Month` from the date. -/
def normalizeRow (r : RawRow) : Record :=
  { month := cellMonth r.date
    description := r.description
    amount := cellValue r.amount
    type := classify (cellValue r.amount) }

/-- Row comparison used by `df.sort_values("Month")`: the calendar order of
the ordered categorical `Month` column. -/
def monthLe (a b : Record) : Bool :=
  decide (a.month ≤ b.month)

/-- Model of `analyze_data(df)` (source lines 57-83).  Returns the caller's table as
it is left after the call (line 64 overwrites the `Amount` column in place;
`dropna` on line 67 rebinds the local name to a copy, so no later assignment
reaches the caller) together with the outcome: the normalized record
sequence sorted by calendar month, or the `MalformedInputError` raised by
`pd.to_datetime` when a kept row's date is malformed. -/
def analyze_data (df : List RawRow) :
    List RawRow × Except MalformedInputError (List Record) :=
  let dfCoerced := df.map coerceAmountCell
  let kept := dfCoerced.filter (fun r => isNumCell r.amount)
  (dfCoerced,
    match firstBadDate kept with
    | some s => .error ⟨s⟩
    | none => .ok (sortStable monthLe (kept.map normalizeRow)))

/-! ## `generate_insights` (source lines 86-150) -/

/-- The three narration strings of source lines 114-119. -/
def positiveReview : String :=
  "The business performed well this month with a positive profit margin."

/-- See `positiveReview`. -/
def negativeReview : String :=
  "Expenses were higher than sales, resulting in a loss this month. Consider reducing expenses."

/-- See `positiveReview`. -/
def balancedReview : String :=
  "Sales and expenses were balanced this month."

/-- One entry of the `monthly_reviews` list built on lines 107-127. -/
structure Review where
  month : Fin 12
  sales : ℚ
  expenses : ℚ
  profit : ℚ
  review : String
deriving DecidableEq, Repr

/-- The insights dictionary returned by `generate_insights` (lines 139-148).
`monthly_summary` entries are `(month, type, summed amount)` triples. -/
structure Insights where
  total_sales : ℚ
  total_expenses : ℚ
  net_profit : ℚ
  monthly_summary : List (Fin 12 × TType × ℚ)
  monthly_reviews : List Review
  product_performance : List (String × ℚ)
  top_products : List (String × ℚ)
  underperforming_products : List (String × ℚ)
deriving DecidableEq, Repr

/-- All twelve months in calendar order: the categories of the ordered
categorical `Month` column. -/
def allMonths : List (Fin 12) := List.finRange 12

/-- The observed values of the `Type` column, in pandas sorted order
(`"Expense" < "Sales"` lexicographically). -/
def observedTypes (recs : List Record) : List TType :=
  (if recs.any (fun r => r.type == TType.Expense) then [TType.Expense] else []) ++
  (if recs.any (fun r => r.type == TType.Sales) then [TType.Sales] else [])

/-- The summed amount of one `(Month, Type)` group. -/
def groupSum (recs : List Record) (m : Fin 12) (t : TType) : ℚ :=
  ((recs.filter (fun r => r.month == m && r.type == t)).map
    (fun r => r.amount)).sum

/-- Model of line 104: `df.groupby(["Month", "Type"])["Amount"].sum().reset_index()`.
`Month` is an ordered categorical, so with the pandas default
`observed=False` the rows are the cartesian product of all twelve month
categories (calendar order, month-major) with the observed `Type` values
(sorted order), `GroupBy.sum` filling unobserved combinations with 0. -/
def monthly_summary (recs : List Record) : List (Fin 12 × TType × ℚ) :=
  allMonths.flatMap (fun m =>
    (observedTypes recs).map (fun t => (m, t, groupSum recs m t)))

/-- Model of line 108: `monthly_summary["Month"].unique()`, in order of first
appearance. -/
def summaryMonths (recs : List Record) : List (Fin 12) :=
  uniqueFirst ((monthly_summary recs).map (fun x => x.1))

/-- The body of the loop on lines 108-127: slice the monthly summary for one
month, sum the `Sales` and `Expense` sides, and attach the narration chosen
by the three-way sign test on the profit. -/
def mkReview (recs : List Record) (m : Fin 12) : Review :=
  let sales := (((monthly_summary recs).filter
    (fun x => x.1 == m && x.2.1 == TType.Sales)).map (fun x => x.2.2)).sum
  let expenses := (((monthly_summary recs).filter
    (fun x => x.1 == m && x.2.1 == TType.Expense)).map (fun x => x.2.2)).sum
  let profit := sales + expenses
  { month := m
    sales := sales
    expenses := expenses
    profit := profit
    review :=
      if 0 < profit then positiveReview
      else if profit < 0 then negativeReview
      else balancedReview }

/-- Lines 107-127: one review per entry of `monthly_summary["Month"].unique()`. -/
def monthly_reviews (recs : List Record) : List Review :=
  (summaryMonths recs).map (mkReview recs)

/-- String comparison used by `groupby("Description")` key sorting. -/
def strLe (a b : String) : Bool :=
  a == b || decide (a < b)

/-- The summed `Sales` amount of one description group (line 130). -/
def productSum (recs : List Record) (d : String) : ℚ :=
  (((recs.filter (fun r => r.type == TType.Sales)).filter
    (fun r => r.description == d)).map (fun r => r.amount)).sum

/-- Model of line 130: `df[df["Type"] == "Sales"].groupby("Description")["Amount"]
.sum().reset_index()` — one row per distinct description among the Sales
records, keys in sorted order. -/
def product_groups (recs : List Record) : List (String × ℚ) :=
  (sortStable strLe
      (uniqueFirst ((recs.filter (fun r => r.type == TType.Sales)).map
        (fun r => r.description)))).map
    (fun d => (d, productSum recs d))

/-- Model of line 131: `sort_values(by="Amount", ascending=False)` as a
stable descending sort.  This is faithful to pandas/numpy only up to numpy's
small-array insertion-sort cutoff; under the default `kind="quicksort"` the
tie order of larger rankings is implementation-defined and is not modelled
(see the header comment). -/
def product_performance (recs : List Record) : List (String × ℚ) :=
  sortStable (fun a b => decide (b.2 ≤ a.2)) (product_groups recs)

/-- Model of `generate_insights(df)` (source lines 86-150). -/
def generate_insights (recs : List Record) : Insights :=
  let total_sales := ((recs.filter (fun r => r.type == TType.Sales)).map
    (fun r => r.amount)).sum
  let total_expenses := ((recs.filter (fun r => r.type == TType.Expense)).map
    (fun r => r.amount)).sum
  let pp := product_performance recs
  { total_sales := total_sales
    total_expenses := total_expenses
    net_profit := total_sales + total_expenses
    monthly_summary := monthly_summary recs
    monthly_reviews := monthly_reviews recs
    product_performance := pp
    top_products := pp.take 5
    underperforming_products := pp.drop (pp.length - 5) }

/-! ## `generate_pdf` (source lines 199-282): report composition

The ReportLab flowables appended to `elements` are modelled symbolically.
A chart image is identified by the data it is rendered from (the chart
helpers on lines 153-196 are pure functions of those arguments).  A table
cell showing `₦{v:,.2f}` is modelled as `Cell.money v`, and one showing
`₦{abs(v):,.2f}` as `Cell.moneyAbs v`: the currency formatting itself is a
presentation detail no claim below depends on, while *which* value a cell
renders (and whether the absolute value is taken) is kept. -/

/-- Identifies a rendered image by what it is rendered from. -/
inductive ChartTag where
  | logo
  | aggregate (reviews : List Review)
  | monthly (month : Fin 12) (sales expenses : ℚ)
deriving DecidableEq, Repr

/-- A table cell: literal text, a `₦`-formatted amount, or a `₦`-formatted
absolute amount. -/
inductive Cell where
  | text (s : String)
  | money (q : ℚ)
  | moneyAbs (q : ℚ)
deriving DecidableEq, Repr

/-- One ReportLab flowable appended to `elements`.  A `paragraph` carries
its text and style name; a `table` carries its rows and column widths. -/
inductive Element where
  | image (tag : ChartTag)
  | paragraph (text : String) (style : String)
  | table (rows : List (List Cell)) (colWidths : List Nat)
  | spacer
  | pageBreak
deriving DecidableEq, Repr

/-- Model of `strftime("%B")` and the categorical month labels: the full English month
name of a month ordinal. -/
def monthName (m : Fin 12) : String :=
  [ "January", "February", "March", "April", "May", "June",
    "July", "August", "September", "October", "November",
    "December" ].getD m.val ""

/-- One row of the annual summary table (lines 224-230): the month label and
the `₦`-formatted sales, absolute expenses and profit. -/
def annualRow (rv : Review) : List Cell :=
  [.text (monthName rv.month), .money rv.sales, .moneyAbs rv.expenses,
   .money rv.profit]

/-- One monthly section of the loop on lines 255-277: heading, the
three-row financial table, the per-month chart, a spacer, the narration
paragraph, then a page break. -/
def monthlySection (rv : Review) : List Element :=
  [ .paragraph ("Monthly Performance - " ++ monthName rv.month) "Heading2",
    .table [[.text "Sales", .money rv.sales],
            [.text "Expenses", .moneyAbs rv.expenses],
            [.text "Profit", .money rv.profit]] [200, 200],
    .image (.monthly rv.month rv.sales rv.expenses),
    .spacer,
    .paragraph ("**Summary**: " ++ rv.review) "Normal",
    .pageBreak ]

/-- Model of `generate_pdf` (source lines 199-282), as the sequence of flowables the
document is built from.  `hasLogo` is whether a `business_logo` was passed;
`today` stands for `datetime.now().strftime("%Y-%m-%d")`;
`business_name or 'Business Name'` falls back on the empty string. -/
def generate_pdf (title : String) (hasLogo : Bool) (business_name : String)
    (insights : Insights) (today : String) : List Element :=
  (if hasLogo then [Element.image ChartTag.logo] else []) ++
  [ .paragraph ("<b>" ++
      (if business_name = "" then "Business Name" else business_name) ++
      "</b>") "Title",
    .paragraph title "Heading2",
    .paragraph ("Report Date: " ++ today) "Normal",
    .spacer,
    .paragraph "Annual Performance Summary (Detailed)" "Heading2",
    .table ([[Cell.text "Month", .text "Sales", .text "Expenses",
              .text "Profit"]] ++ insights.monthly_reviews.map annualRow)
      [100, 100, 100, 100],
    .spacer,
    .paragraph "Overall Performance Chart" "Heading2",
    .image (.aggregate insights.monthly_reviews),
    .pageBreak ] ++
  (insights.monthly_reviews.map monthlySection).flatten

/-- The flowables strictly after the first page break of a document — i.e.
after the page break that follows the aggregate chart. -/
def afterFirstBreak (es : List Element) : List Element :=
  (es.dropWhile (fun e => !(e == Element.pageBreak))).drop 1

/-- The row count of a table flowable. -/
def tableRowCount : Element → Option Nat
  | .table rows _ => some rows.length
  | _ => none

/-! ## Helper lemmas about `analyze_data` -/

/-- Whether `pd.to_numeric` keeps the row's `Amount` numeric, i.e. whether
the row survives `dropna`. -/
def coercible (r : RawRow) : Bool := isNumCell (to_numeric r.amount)

/-- Whether the row's `Date` cell is one `pd.to_datetime` raises on. -/
def dateMalformed (r : RawRow) : Bool := (badDate r.date).isSome

theorem classify_sales_iff (q : ℚ) : classify q = TType.Sales ↔ 0 < q := by
  unfold classify
  by_cases h : 0 < q <;> simp [h]

theorem classify_expense_iff (q : ℚ) : classify q = TType.Expense ↔ q ≤ 0 := by
  rw [← not_lt, ← classify_sales_iff]
  unfold classify
  by_cases h : 0 < q <;> simp [h]

theorem analyze_data_fst (df : List RawRow) :
    (analyze_data df).1 = df.map coerceAmountCell := rfl

theorem analyze_data_kept (df : List RawRow) :
    (df.map coerceAmountCell).filter (fun r => isNumCell r.amount) =
      (df.filter coercible).map coerceAmountCell := by
  rw [List.filter_map]
  rfl

theorem analyze_data_snd (df : List RawRow) :
    (analyze_data df).2 =
      match firstBadDate ((df.filter coercible).map coerceAmountCell) with
      | some s => Except.error ⟨s⟩
      | none => Except.ok (sortStable monthLe
          (((df.filter coercible).map coerceAmountCell).map normalizeRow)) := by
  have h := analyze_data_kept df
  simp only [analyze_data]
  rw [h]

theorem firstBadDate_map_coerce (l : List RawRow) :
    firstBadDate (l.map coerceAmountCell) = firstBadDate l := by
  unfold firstBadDate
  rw [List.findSome?_map]
  rfl

theorem dateMalformed_false_iff (r : RawRow) :
    dateMalformed r = false ↔ badDate r.date = none := by
  unfold dateMalformed
  cases h : badDate r.date <;> simp [h]

theorem analyze_isOk_iff (df : List RawRow) :
    (analyze_data df).2.isOk = true ↔
      ∀ r ∈ df, coercible r = true → dateMalformed r = false := by
  rw [analyze_data_snd, firstBadDate_map_coerce]
  cases hfb : firstBadDate (df.filter coercible) with
  | none =>
    rw [firstBadDate, List.findSome?_eq_none_iff] at hfb
    constructor
    · intro _ r hr hc
      have h2 := hfb r (List.mem_filter.mpr ⟨hr, hc⟩)
      rw [dateMalformed_false_iff]
      exact h2
    · intro _
      rfl
  | some s =>
    constructor
    · intro h
      cases h
    · intro hAll
      rw [firstBadDate] at hfb
      obtain ⟨r, hr, hsome⟩ := List.exists_of_findSome?_eq_some hfb
      rcases List.mem_filter.mp hr with ⟨hrdf, hrc⟩
      have hd := (dateMalformed_false_iff r).mp (hAll r hrdf hrc)
      rw [hd] at hsome
      cases hsome

theorem analyze_isErr_iff (df : List RawRow) :
    (analyze_data df).2.isOk = false ↔
      ∃ r ∈ df, coercible r = true ∧ dateMalformed r = true := by
  constructor
  · intro hfalse
    by_contra hne
    push_neg at hne
    have hall : ∀ r ∈ df, coercible r = true → dateMalformed r = false := by
      intro r hr hc
      cases hd : dateMalformed r
      · rfl
      · exact absurd hd (hne r hr hc)
    have h := (analyze_isOk_iff df).mpr hall
    rw [hfalse] at h
    cases h
  · rintro ⟨r, hr, hc, hd⟩
    cases hok : (analyze_data df).2.isOk
    · rfl
    · have h := (analyze_isOk_iff df).mp hok r hr hc
      rw [hd] at h
      cases h

theorem analyze_ok_perm (df : List RawRow) (recs : List Record)
    (hok : (analyze_data df).2 = Except.ok recs) :
    List.Perm recs ((df.filter coercible).map
      (fun r => normalizeRow (coerceAmountCell r))) := by
  have hsnd := analyze_data_snd df
  rw [hok] at hsnd
  cases hfb : firstBadDate ((df.filter coercible).map coerceAmountCell) with
  | some s =>
    rw [hfb] at hsnd
    cases hsnd
  | none =>
    rw [hfb] at hsnd
    injection hsnd with hrecs
    rw [hrecs, List.map_map]
    exact sortStable_perm _ _

/-! ## Claims C1, C4, C7, C9, C10 -/

/-- C1: in every normalized record, the derived type is `Sales` exactly when
the amount is strictly positive and `Expense` exactly when it is `≤ 0`
(zero classifies as `Expense`); and the type label supplied with the input
rows is ignored — relabelling the input arbitrarily leaves the
normalization outcome unchanged. -/
theorem c1_sign_classification :
    (∀ (df : List RawRow) (recs : List Record),
        (analyze_data df).2 = Except.ok recs →
        ∀ r ∈ recs,
          (r.type = TType.Sales ↔ 0 < r.amount) ∧
          (r.type = TType.Expense ↔ r.amount ≤ 0)) ∧
    (∀ (df : List RawRow) (g : RawRow → String),
        (analyze_data (df.map (fun r => { r with typeLabel := g r }))).2 =
          (analyze_data df).2) := by
  constructor
  · intro df recs hok r hr
    have hperm := analyze_ok_perm df recs hok
    obtain ⟨r0, _, rfl⟩ := List.mem_map.mp (hperm.subset hr)
    exact ⟨classify_sales_iff _, classify_expense_iff _⟩
  · intro df g
    simp only [analyze_data, firstBadDate, List.filter_map, List.findSome?_map,
      List.map_map]
    rfl

/-- Witness for C1 at a concrete input: the single coercible row of amount 5
normalizes to a `Sales` record. -/
def goodRow : RawRow :=
  { date := .valid 0, description := "Widget", amount := .num 5,
    typeLabel := "Expense" }

/-- The record `goodRow` normalizes to. -/
def goodRecord : Record :=
  { month := 0, description := "Widget", amount := 5, type := .Sales }

/-- C1 applied at `goodRow`. -/
theorem c1_sign_classification_witness :
    (goodRecord.type = TType.Sales ↔ 0 < goodRecord.amount) ∧
    (goodRecord.type = TType.Expense ↔ goodRecord.amount ≤ 0) :=
  c1_sign_classification.1 [goodRow] [goodRecord] (by rfl) goodRecord
    (List.mem_singleton.mpr rfl)

/-- C4: normalization fails (with the date error) exactly when some
amount-coercible row has a malformed date — a malformed date on a kept row
aborts the whole batch — and on success the result is exactly the
normalization of the coercible rows: rows whose amount fails coercion are
silently excluded, every other row is retained. -/
theorem c4_amount_tolerated_date_fatal (df : List RawRow) :
    ((analyze_data df).2.isOk = false ↔
      ∃ r ∈ df, coercible r = true ∧ dateMalformed r = true) ∧
    (∀ recs, (analyze_data df).2 = Except.ok recs →
      List.Perm recs ((df.filter coercible).map
        (fun r => normalizeRow (coerceAmountCell r)))) :=
  ⟨analyze_isErr_iff df, fun recs hok => analyze_ok_perm df recs hok⟩

/-- A row whose amount text cannot be coerced (and is therefore dropped). -/
def badRow : RawRow :=
  { date := .valid 0, description := "Widget", amount := .invalid "abc",
    typeLabel := "Sales" }

/-- C4 applied at `[badRow, goodRow]`: the uncoercible row is silently
dropped and the remaining row is normalized. -/
theorem c4_amount_tolerated_date_fatal_witness :
    List.Perm [goodRecord]
      (([badRow, goodRow].filter coercible).map
        (fun r => normalizeRow (coerceAmountCell r))) :=
  (c4_amount_tolerated_date_fatal [badRow, goodRow]).2 [goodRecord] (by rfl)

/-- C10: uncoercible-amount rows are dropped before any date is parsed —
if every coercible row has a well-formed date the run succeeds, regardless
of the dates on the dropped rows; and a failed run always exhibits a
coercible row with a malformed date. -/
theorem c10_drop_before_date_parse (df : List RawRow) :
    ((∀ r ∈ df, coercible r = true → dateMalformed r = false) →
      (analyze_data df).2.isOk = true) ∧
    ((analyze_data df).2.isOk = false →
      ∃ r ∈ df, coercible r = true ∧ dateMalformed r = true) :=
  ⟨fun h => (analyze_isOk_iff df).mpr h, fun h => (analyze_isErr_iff df).mp h⟩

/-- A row that both fails amount coercion and has a malformed date. -/
def uglyRow : RawRow :=
  { date := .malformed "not-a-date", description := "W",
    amount := .invalid "abc", typeLabel := "Sales" }

/-- C10 applied at `[uglyRow, goodRow]`: the malformed date on the dropped
row does not abort the run. -/
theorem c10_drop_before_date_parse_witness :
    (analyze_data [uglyRow, goodRow]).2.isOk = true :=
  (c10_drop_before_date_parse [uglyRow, goodRow]).1 (by decide)

/-- C7: the insight engine on the empty normalized record sequence (a total
function — no error is possible) returns the bundle with zero totals and
empty monthly-review and product sequences. -/
theorem c7_empty_input_zero_bundle :
    (generate_insights ([] : List Record)).total_sales = 0 ∧
    (generate_insights ([] : List Record)).total_expenses = 0 ∧
    (generate_insights ([] : List Record)).net_profit = 0 ∧
    (generate_insights ([] : List Record)).monthly_summary = [] ∧
    (generate_insights ([] : List Record)).monthly_reviews = [] ∧
    (generate_insights ([] : List Record)).product_performance = [] ∧
    (generate_insights ([] : List Record)).top_products = [] ∧
    (generate_insights ([] : List Record)).underperforming_products = [] := by
  refine ⟨rfl, rfl, ?_, rfl, rfl, rfl, rfl, rfl⟩
  show (0 : ℚ) + 0 = 0
  norm_num

/-- C9 as stated is false at a concrete input: `analyze_data` overwrites
the caller's `Amount` column in place (source line 64), so after the call
the caller's table no longer equals the original — the uncoercible cell
`"abc"` has become NaN. -/
theorem c9_purity_counterexample :
    (analyze_data [badRow]).1 ≠ [badRow] := by
  decide

/-- C9 (amended): `analyze_data` is pure except that it overwrites the
caller's `Amount` column in place with the coerced numeric values
(uncoercible cells become NaN); it neither adds nor removes rows of the
caller's table and leaves the `Date`, `Description` and type-label columns
unchanged (the derived `Type` and `Month` columns exist only on the
returned copy). -/
theorem c9_only_amount_overwritten (df : List RawRow) :
    (analyze_data df).1 = df.map coerceAmountCell ∧
    (analyze_data df).1.length = df.length ∧
    (analyze_data df).1.map (fun r => r.date) = df.map (fun r => r.date) ∧
    (analyze_data df).1.map (fun r => r.description) =
      df.map (fun r => r.description) ∧
    (analyze_data df).1.map (fun r => r.typeLabel) =
      df.map (fun r => r.typeLabel) ∧
    (analyze_data df).1.map (fun r => r.amount) =
      df.map (fun r => to_numeric r.amount) := by
  refine ⟨rfl, ?_, ?_, ?_, ?_, ?_⟩ <;>
    simp [analyze_data_fst, coerceAmountCell, List.map_map, Function.comp]

/-! ## Helper lemmas about `generate_insights` -/

theorem map_fst_monthly_summary (recs : List Record) :
    (monthly_summary recs).map (fun x => x.1) =
      allMonths.flatMap (fun m => (observedTypes recs).map (fun _ => m)) := by
  unfold monthly_summary
  rw [List.map_flatMap]
  simp only [List.map_map]
  rfl

theorem observedTypes_cases (recs : List Record) :
    observedTypes recs = [] ∨ observedTypes recs = [TType.Expense] ∨
    observedTypes recs = [TType.Sales] ∨
    observedTypes recs = [TType.Expense, TType.Sales] := by
  unfold observedTypes
  by_cases hE : recs.any (fun r => r.type == TType.Expense) = true <;>
    by_cases hS : recs.any (fun r => r.type == TType.Sales) = true <;>
      simp [hE, hS]

theorem observedTypes_nil_iff (recs : List Record) :
    observedTypes recs = [] ↔ recs = [] := by
  constructor
  · intro h
    cases recs with
    | nil => rfl
    | cons r rs =>
      exfalso
      revert h
      unfold observedTypes
      cases hr : r.type with
      | Sales =>
        have hS : (r :: rs).any (fun x => x.type == TType.Sales) = true := by
          simp [List.any_cons, hr]
        rw [hS]
        simp
      | Expense =>
        have hE : (r :: rs).any (fun x => x.type == TType.Expense) = true := by
          simp [List.any_cons, hr]
        rw [hE]
        simp
  · intro h
    subst h
    rfl

theorem summaryMonths_eq (recs : List Record) :
    summaryMonths recs = if recs = [] then [] else allMonths := by
  unfold summaryMonths
  rw [map_fst_monthly_summary]
  rcases observedTypes_cases recs with h | h | h | h
  · rw [h, if_pos ((observedTypes_nil_iff recs).mp h)]
    decide
  all_goals {
    have hne : recs ≠ [] := by
      intro hnil
      rw [(observedTypes_nil_iff recs).mpr hnil] at h
      cases h
    rw [h, if_neg hne]
    decide }

theorem sum_block (ts : List TType) (m mk : Fin 12) (t : TType)
    (g : Fin 12 → TType → ℚ) :
    (((ts.map (fun tp => (mk, tp, g mk tp))).filter
        (fun x => x.1 == m && x.2.1 == t)).map (fun x => x.2.2)).sum =
      if mk = m then ((ts.count t : ℕ) : ℚ) * g m t else 0 := by
  induction ts with
  | nil => by_cases h : mk = m <;> simp [h]
  | cons tp ts ih =>
    simp only [List.map_cons, List.filter_cons]
    by_cases hm : mk = m
    · subst hm
      by_cases ht : tp = t
      · subst ht
        simp only [beq_self_eq_true, Bool.and_self, if_pos, List.map_cons,
          List.sum_cons, ih, if_pos rfl, List.count_cons_self]
        push_cast
        ring
      · have hcond : ((mk == mk && tp == t) : Bool) = false := by simp [ht]
        rw [hcond]
        simp only [Bool.false_eq_true, if_false, ih, if_pos rfl,
          List.count_cons_of_ne (by simpa using (Ne.symm ht))]
    · have hcond : ((mk == m && tp == t) : Bool) = false := by simp [hm]
      rw [hcond]
      simp only [Bool.false_eq_true, if_false, ih, if_neg hm]

theorem sum_product_filter (ms : List (Fin 12)) (ts : List TType) (m : Fin 12)
    (t : TType) (g : Fin 12 → TType → ℚ) :
    (((ms.flatMap (fun mk => ts.map (fun tp => (mk, tp, g mk tp)))).filter
        (fun x => x.1 == m && x.2.1 == t)).map (fun x => x.2.2)).sum =
      ((ms.count m : ℕ) : ℚ) * ((ts.count t : ℕ) : ℚ) * g m t := by
  induction ms with
  | nil => simp
  | cons mk ms ih =>
    rw [List.flatMap_cons, List.filter_append, List.map_append, List.sum_append,
      sum_block, ih]
    by_cases hm : mk = m
    · subst hm
      rw [if_pos rfl, List.count_cons_self]
      push_cast
      ring
    · rw [if_neg hm, List.count_cons_of_ne (by simpa using (Ne.symm hm))]
      ring

theorem count_observedTypes (recs : List Record) (t : TType) :
    (observedTypes recs).count t =
      if recs.any (fun r => r.type == t) = true then 1 else 0 := by
  unfold observedTypes
  by_cases hE : recs.any (fun r => r.type == TType.Expense) = true <;>
    by_cases hS : recs.any (fun r => r.type == TType.Sales) = true <;>
      cases t <;> simp [hE, hS]

theorem groupSum_zero_of_absent (recs : List Record) (m : Fin 12) (t : TType)
    (h : recs.any (fun r => r.type == t) = false) :
    groupSum recs m t = 0 := by
  unfold groupSum
  rw [List.any_eq_false] at h
  have hfil : recs.filter (fun r => r.month == m && r.type == t) = [] :=
    List.filter_eq_nil_iff.mpr (fun r hr hc => by
      simp only [Bool.and_eq_true] at hc
      exact h r hr hc.2)
  rw [hfil]
  rfl

theorem review_side_sum (recs : List Record) (m : Fin 12) (t : TType) :
    (((monthly_summary recs).filter (fun x => x.1 == m && x.2.1 == t)).map
      (fun x => x.2.2)).sum = groupSum recs m t := by
  unfold monthly_summary
  have hall : allMonths.count m = 1 :=
    List.count_eq_one_of_mem (List.nodup_finRange 12) (List.mem_finRange m)
  rw [sum_product_filter, hall, count_observedTypes]
  by_cases hT : recs.any (fun r => r.type == t) = true
  · rw [if_pos hT]
    norm_num
  · rw [if_neg hT, groupSum_zero_of_absent recs m t (by simpa using hT)]
    norm_num

theorem mkReview_sales_eq (recs : List Record) (m : Fin 12) :
    (mkReview recs m).sales = groupSum recs m TType.Sales :=
  review_side_sum recs m TType.Sales

theorem mkReview_expenses_eq (recs : List Record) (m : Fin 12) :
    (mkReview recs m).expenses = groupSum recs m TType.Expense :=
  review_side_sum recs m TType.Expense

theorem mkReview_profit_eq (recs : List Record) (m : Fin 12) :
    (mkReview recs m).profit =
      (mkReview recs m).sales + (mkReview recs m).expenses := rfl

theorem mkReview_review_eq (recs : List Record) (m : Fin 12) :
    (mkReview recs m).review =
      if 0 < (mkReview recs m).profit then positiveReview
      else if (mkReview recs m).profit < 0 then negativeReview
      else balancedReview := rfl

theorem monthly_reviews_eq (recs : List Record) :
    monthly_reviews recs =
      (if recs = [] then [] else allMonths).map (mkReview recs) := by
  rw [monthly_reviews, summaryMonths_eq]

theorem mem_monthly_reviews (recs : List Record) (rv : Review)
    (h : rv ∈ monthly_reviews recs) : ∃ m, rv = mkReview recs m := by
  rw [monthly_reviews] at h
  obtain ⟨m, _, rfl⟩ := List.mem_map.mp h
  exact ⟨m, rfl⟩

theorem monthly_reviews_months (recs : List Record) (h : recs ≠ []) :
    (monthly_reviews recs).map (fun rv => rv.month) = allMonths := by
  rw [monthly_reviews_eq, if_neg h, List.map_map]
  exact List.map_id _

/-! ## Claims C2, C3, C6 -/

/-- C2: in the bundle, `net_profit` equals `total_sales + total_expenses`
exactly, and every monthly review's `profit` equals its `sales + expenses`
exactly, for any record set. -/
theorem c2_exact_profit_identities (recs : List Record) :
    (generate_insights recs).net_profit =
      (generate_insights recs).total_sales +
        (generate_insights recs).total_expenses ∧
    ∀ rv ∈ (generate_insights recs).monthly_reviews,
      rv.profit = rv.sales + rv.expenses := by
  refine ⟨rfl, ?_⟩
  intro rv hrv
  obtain ⟨m, rfl⟩ := mem_monthly_reviews recs rv hrv
  rfl

/-- A single normalized January Sales record used as a concrete input. -/
def demoRec : Record :=
  { month := 0, description := "Widget", amount := 100, type := .Sales }

/-- C2 applied to the January review of the demo record set. -/
theorem c2_exact_profit_identities_witness :
    (mkReview [demoRec] 0).profit =
      (mkReview [demoRec] 0).sales + (mkReview [demoRec] 0).expenses :=
  (c2_exact_profit_identities [demoRec]).2 (mkReview [demoRec] 0)
    (show mkReview [demoRec] 0 ∈ monthly_reviews [demoRec] by
      rw [monthly_reviews_eq, if_neg (by simp)]
      exact List.mem_map_of_mem _ (List.mem_finRange 0))

/-- C3 as stated is false at a concrete input: with a single January record
the bundle contains a review for a month (February) that occurs in no
record.  `Month` is an ordered categorical column and pandas `groupby`
defaults to `observed=False`, so every calendar month gets an entry. -/
theorem c3_absent_month_counterexample :
    ((generate_insights [demoRec]).monthly_reviews.any (fun rv =>
      [demoRec].all (fun r => !(r.month == rv.month)))) = true := by
  decide

/-- C3 (amended): for a non-empty record set the bundle contains exactly one
`MonthlyReview` for each of the twelve calendar months, in calendar order
January→December regardless of input row order; each review's sales and
expenses are that month's per-type sums, so absent months and missing sides
get zero rather than an omitted entry.  (For the empty record set the
sequence is empty, see C7.) -/
theorem c3_calendar_coverage (recs : List Record) (h : recs ≠ []) :
    (generate_insights recs).monthly_reviews.map (fun rv => rv.month) =
      allMonths ∧
    ∀ rv ∈ (generate_insights recs).monthly_reviews,
      rv.sales = groupSum recs rv.month TType.Sales ∧
      rv.expenses = groupSum recs rv.month TType.Expense := by
  constructor
  · exact monthly_reviews_months recs h
  · intro rv hrv
    obtain ⟨m, rfl⟩ := mem_monthly_reviews recs rv hrv
    exact ⟨mkReview_sales_eq recs m, mkReview_expenses_eq recs m⟩

/-- C3 (amended) applied to the demo record set. -/
theorem c3_calendar_coverage_witness :
    (generate_insights [demoRec]).monthly_reviews.map (fun rv => rv.month) =
      allMonths :=
  (c3_calendar_coverage [demoRec] (by simp)).1

/-- C6: each review's narration is chosen by the three-way sign test on its
profit, checked in the order `> 0`, then `< 0`, then exact zero. -/
theorem c6_narration_sign_rule (recs : List Record) :
    ∀ rv ∈ (generate_insights recs).monthly_reviews,
      (0 < rv.profit → rv.review = positiveReview) ∧
      (rv.profit < 0 → rv.review = negativeReview) ∧
      (rv.profit = 0 → rv.review = balancedReview) := by
  intro rv hrv
  obtain ⟨m, rfl⟩ := mem_monthly_reviews recs rv hrv
  refine ⟨?_, ?_, ?_⟩ <;> intro h <;> rw [mkReview_review_eq]
  · rw [if_pos h]
  · rw [if_neg (lt_asymm h), if_pos h]
  · simp [h]

/-- C6 applied to the January review of the demo record set, whose profit
is positive. -/
theorem c6_narration_sign_rule_witness :
    (mkReview [demoRec] 0).review = positiveReview := by
  have hmem : mkReview [demoRec] 0 ∈ monthly_reviews [demoRec] := by
    rw [monthly_reviews_eq, if_neg (by simp)]
    exact List.mem_map_of_mem _ (List.mem_finRange 0)
  have hpos : 0 < (mkReview [demoRec] 0).profit := by
    have hfil : List.filter
        (fun r => r.month == (0 : Fin 12) && r.type == TType.Sales)
        [demoRec] = [demoRec] := by decide
    rw [mkReview_profit_eq, mkReview_sales_eq, mkReview_expenses_eq,
      groupSum_zero_of_absent [demoRec] 0 TType.Expense (by decide),
      groupSum, hfil]
    norm_num [demoRec]
  exact ((c6_narration_sign_rule [demoRec]) (mkReview [demoRec] 0) hmem).1 hpos

/-! ## Claim C8 -/

/-- The document rendered for the demo bundle. -/
def demoDoc : List Element :=
  generate_pdf "Business Performance Report" false ""
    (generate_insights [demoRec]) "2024-11-01"

/-- C8 as stated is false at a concrete input: in the rendered document the
part after the page break that follows the aggregate chart has six
flowables per monthly review (heading, table, chart, spacer, narration,
page break), not four, and every financial table there has exactly three
rows (Sales, Expenses, Profit), not two. -/
theorem c8_section_shape_counterexample :
    (afterFirstBreak demoDoc).filterMap tableRowCount =
      List.replicate 12 3 ∧
    (afterFirstBreak demoDoc).length =
      6 * (generate_insights [demoRec]).monthly_reviews.length :=
  ⟨by decide, by decide⟩

/-- C8 (amended): after the page break following the aggregate chart, each
`MonthlyReview` — in calendar order — contributes a section consisting of a
section heading, a small *three*-row financial table (Sales, Expenses with
absolute value, Profit), the per-month chart image, a spacer, the narration
text, then a page break. -/
theorem c8_monthly_section_structure (title : String) (hasLogo : Bool)
    (business_name : String) (recs : List Record) (today : String) :
    ∃ pre : List Element, Element.pageBreak ∉ pre ∧
      generate_pdf title hasLogo business_name (generate_insights recs)
          today =
        pre ++ [Element.pageBreak] ++
          (generate_insights recs).monthly_reviews.flatMap (fun rv =>
            [ Element.paragraph
                ("Monthly Performance - " ++ monthName rv.month) "Heading2",
              Element.table
                [[Cell.text "Sales", Cell.money rv.sales],
                 [Cell.text "Expenses", Cell.moneyAbs rv.expenses],
                 [Cell.text "Profit", Cell.money rv.profit]] [200, 200],
              Element.image (ChartTag.monthly rv.month rv.sales rv.expenses),
              Element.spacer,
              Element.paragraph ("**Summary**: " ++ rv.review) "Normal",
              Element.pageBreak ]) ∧
      (recs ≠ [] →
        (generate_insights recs).monthly_reviews.map (fun rv => rv.month) =
          allMonths) := by
  refine ⟨(if hasLogo then [Element.image ChartTag.logo] else []) ++
    [ Element.paragraph ("<b>" ++
        (if business_name = "" then "Business Name" else business_name) ++
        "</b>") "Title",
      Element.paragraph title "Heading2",
      Element.paragraph ("Report Date: " ++ today) "Normal",
      Element.spacer,
      Element.paragraph "Annual Performance Summary (Detailed)" "Heading2",
      Element.table ([[Cell.text "Month", Cell.text "Sales",
          Cell.text "Expenses", Cell.text "Profit"]] ++
        (generate_insights recs).monthly_reviews.map annualRow)
        [100, 100, 100, 100],
      Element.spacer,
      Element.paragraph "Overall Performance Chart" "Heading2",
      Element.image
        (ChartTag.aggregate (generate_insights recs).monthly_reviews) ],
    ?_, ?_, fun h => monthly_reviews_months recs h⟩
  · cases hasLogo <;> simp
  · simp only [generate_pdf, List.flatMap_def, List.append_assoc,
      List.cons_append, List.nil_append]
    rfl

/-- C8 (amended) applied at a concrete input. -/
theorem c8_monthly_section_structure_witness :
    ∃ pre : List Element, Element.pageBreak ∉ pre ∧
      generate_pdf "T" false "B" (generate_insights [demoRec]) "D" =
        pre ++ [Element.pageBreak] ++
          (generate_insights [demoRec]).monthly_reviews.flatMap (fun rv =>
            [ Element.paragraph
                ("Monthly Performance - " ++ monthName rv.month) "Heading2",
              Element.table
                [[Cell.text "Sales", Cell.money rv.sales],
                 [Cell.text "Expenses", Cell.moneyAbs rv.expenses],
                 [Cell.text "Profit", Cell.money rv.profit]] [200, 200],
              Element.image (ChartTag.monthly rv.month rv.sales rv.expenses),
              Element.spacer,
              Element.paragraph ("**Summary**: " ++ rv.review) "Normal",
              Element.pageBreak ]) ∧
      (generate_insights [demoRec]).monthly_reviews.map (fun rv => rv.month) =
        allMonths := by
  obtain ⟨pre, h1, h2, h3⟩ :=
    c8_monthly_section_structure "T" false "B" [demoRec] "D"
  exact ⟨pre, h1, h2, h3 (by simp)⟩

end ShowInvestor
